import Mathlib

/-!
Verification of the usb_reset tool (src/usb_reset.cpp).

The development embeds the two source files shallowly:
the identifier parsing function is modelled character by character
(including the C strtoul base-16 semantics it relies on), and the
device-resolution-and-reset pipeline is modelled as a function from an
abstract USB host environment to the trace of libusb calls and output
lines it performs, together with its result (normal return or thrown
exception message).
-/

namespace UsbReset

/-- Whitespace recognised by strtoul in the C locale (isspace). -/
def isSpaceC (c : Char) : Bool :=
  c.toNat = 32 || c.toNat = 9 || c.toNat = 10 || c.toNat = 11 ||
  c.toNat = 12 || c.toNat = 13

/-- Hexadecimal digit as accepted by strtoul with base 16. -/
def isHexDigitC (c : Char) : Bool :=
  (48 ≤ c.toNat && c.toNat ≤ 57) || (97 ≤ c.toNat && c.toNat ≤ 102) ||
  (65 ≤ c.toNat && c.toNat ≤ 70)

/-- Numeric value of a hexadecimal digit. -/
def hexVal (c : Char) : Nat :=
  if c.toNat ≤ 57 then c.toNat - 48
  else if 97 ≤ c.toNat then c.toNat - 87
  else c.toNat - 55

/-- Value denoted by a string of hexadecimal digits (most significant first). -/
def hexNumber (l : List Char) : Nat :=
  l.foldl (fun acc c => acc * 16 + hexVal c) 0

/-- Consume the maximal run of hexadecimal digits, accumulating the value
and counting the consumed characters. -/
def parseHexRun : List Char → Nat → Nat → Nat × Nat
  | [], acc, n => (acc, n)
  | c :: rest, acc, n =>
    if isHexDigitC c then parseHexRun rest (acc * 16 + hexVal c) (n + 1)
    else (acc, n)

/-- Skip leading whitespace: number of characters skipped and the remainder. -/
def dropSpaces : List Char → Nat × List Char
  | [] => (0, [])
  | c :: rest =>
    if isSpaceC c then
      let r := dropSpaces rest
      (r.1 + 1, r.2)
    else (0, c :: rest)

/-- Consume an optional sign: (consumed count, negative flag, remainder). -/
def signSplit : List Char → Nat × Bool × List Char
  | [] => (0, false, [])
  | c :: rest =>
    if c == '+' then (1, false, rest)
    else if c == '-' then (1, true, rest)
    else (0, false, c :: rest)

/-- First character is a hexadecimal digit. -/
def headIsHex : List Char → Bool
  | [] => false
  | c :: _ => isHexDigitC c

/-- Consume an optional 0x or 0X base marker, which strtoul only takes when
a hexadecimal digit follows it: (consumed count, remainder). -/
def hexSplit0x : List Char → Nat × List Char
  | c0 :: c1 :: rest =>
    if c0 == '0' && (c1 == 'x' || c1 == 'X') && headIsHex rest then (2, rest)
    else (0, c0 :: c1 :: rest)
  | s => (0, s)

/-- C strtoul with base 16 on a NUL-terminated view of the characters:
returns the converted unsigned long value (64-bit wraparound for a
negative sign) and the offset of the end pointer, which is 0 when no
conversion was performed. -/
def strtoul16 (s : List Char) : Nat × Nat :=
  let w := dropSpaces s
  let g := signSplit w.2
  let x := hexSplit0x g.2.2
  let r := parseHexRun x.2 0 0
  if r.2 = 0 then (0, 0)
  else
    ((if g.2.1 then (2 ^ 64 - r.1 % 2 ^ 64) % 2 ^ 64 else r.1 % 2 ^ 64),
     w.1 + g.1 + x.1 + r.2)

/-- Errors thrown by parse_argv1, identified by their exception message. -/
inductive ParseError where
  | FormatError
  | InvalidVendorId
  | InvalidProductId
deriving DecidableEq

/-- Exception message carried by each parse error in the source. -/
def ParseError.message : ParseError → String
  | .FormatError => "Please provide correct vendor_id:product_id pair."
  | .InvalidVendorId => "Invalid vendor_id"
  | .InvalidProductId => "Invalid product_id"

/-- Embedding of parse_argv1: checks the 9-character HHHH:HHHH frame, then
runs strtoul base 16 on each half and requires the end pointer to land
exactly 4 characters in with a value below 65536. -/
def parse_argv1 (s : String) : Except ParseError (Nat × Nat) :=
  if s.data.length ≠ 9 ∨ s.data.getD 4 ' ' ≠ ':' then .error .FormatError
  else if (strtoul16 (s.data.take 4)).2 ≠ 4 ∨
      65536 ≤ (strtoul16 (s.data.take 4)).1 then .error .InvalidVendorId
  else if (strtoul16 ((s.data.drop 5).take 4)).2 ≠ 4 ∨
      65536 ≤ (strtoul16 ((s.data.drop 5).take 4)).1 then
    .error .InvalidProductId
  else .ok ((strtoul16 (s.data.take 4)).1,
            (strtoul16 ((s.data.drop 5).take 4)).1)

/-- Fields of libusb_device_descriptor that the program reads. -/
structure libusb_device_descriptor where
  idVendor : Nat
  idProduct : Nat
  iProduct : Nat
  iManufacturer : Nat
deriving DecidableEq

/-- Behaviour of one attached device as seen through libusb: whether its
descriptor read succeeds, the descriptor, whether libusb_open succeeds,
the buffer contents observed after each of the two string descriptor
reads (the source ignores the return codes of those reads, so the
contents are arbitrary, possibly stale), and whether the reset succeeds. -/
structure DeviceBehavior where
  descOk : Bool
  desc : libusb_device_descriptor
  openOk : Bool
  prodStr : String
  manuStr : String
  resetOk : Bool
deriving DecidableEq

/-- Abstract USB host environment for one invocation: whether libusb_init
succeeds, whether libusb_get_device_list succeeds (a negative count),
and the snapshot of attached devices. -/
structure UsbEnv where
  initOk : Bool
  listOk : Bool
  devices : List DeviceBehavior
deriving DecidableEq

/-- Observable events of one invocation: each libusb call made by the
program (with the device index it concerns where applicable) and each
output line printed. -/
inductive Event where
  | libusb_init (ok : Bool)
  | libusb_exit
  | libusb_get_device_list (ok : Bool)
  | libusb_free_device_list
  | libusb_get_device_descriptor (i : Nat) (ok : Bool)
  | libusb_open (i : Nat) (ok : Bool)
  | libusb_get_string_descriptor_ascii (i : Nat) (idx : Nat)
  | libusb_close (i : Nat)
  | libusb_reset_device (i : Nat) (ok : Bool)
  | out (line : String)
deriving DecidableEq

/-- Device index an event concerns, when it is a per-device libusb call. -/
def evIndex : Event → Option Nat
  | .libusb_get_device_descriptor i _ => some i
  | .libusb_open i _ => some i
  | .libusb_get_string_descriptor_ascii i _ => some i
  | .libusb_close i => some i
  | .libusb_reset_device i _ => some i
  | _ => none

/-- Exception message of the DeviceList constructor. -/
def listErrMsg : String := "Failed to get device list from libusb."

/-- Exception message of the UsbContext constructor. -/
def initErrMsg : String := "Failed to initialize libusb."

/-- Exception message of the DeviceHandle constructor. -/
def openErrMsg : String :=
  "Failed to get handle for usb device. Insufficient privilege?"

/-- Exception message of a failed libusb_get_device_descriptor call. -/
def descErrMsg : String := "Failed to get device descriptor."

/-- Line printed when no device matches. -/
def notFoundMsg : String := "No such USB device found."

/-- Warning line printed when libusb_reset_device returns nonzero. -/
def softFailMsg : String :=
  "It seems the reset process did not end properly. You should check " ++
  "the device itself to see if it succeeded."

/-- Completion line. -/
def finishedMsg : String := "Finished."

/-- First line reported for a device about to be reset. -/
def productLine (s : String) : String :=
  "Product: " ++ s ++ " (length: " ++ toString s.length ++ ")"

/-- Second line reported for a device about to be reset. -/
def manufacturerLine (s : String) : String :=
  "Manufacturer: " ++ s ++ " (length: " ++ toString s.length ++ ")"

/-- The reset decision of lines 135-137 of the source: proceed when both
expected strings were supplied (non-null pointers) and both actual
strings differ from them, or when neither expected string was supplied. -/
def proceedDecision (product manufacturer : Option String)
    (prod manu : String) : Bool :=
  (product.isSome && manufacturer.isSome &&
     !(prod == product.getD "") && !(manu == manufacturer.getD "")) ||
  (!product.isSome && !manufacturer.isSome)

/-- Events of the decision-guarded block: the two report lines, the
resetting line, the reset call, the soft-failure warning when the reset
call returns nonzero, and the completion line; nothing when the decision
is to skip. -/
def deviceBody (i : Nat) (d : DeviceBehavior)
    (product manufacturer : Option String) : List Event :=
  if proceedDecision product manufacturer d.prodStr d.manuStr then
    [.out (productLine d.prodStr), .out (manufacturerLine d.manuStr),
     .out "Resetting this device ...", .libusb_reset_device i d.resetOk] ++
    (if d.resetOk then [] else [.out softFailMsg]) ++ [.out finishedMsg]
  else []

/-- Events and result of processing the matched device at index i: open
the handle (throwing if that fails), read the two string descriptors,
run the guarded block, and close the handle on leaving the scope. -/
def processDevice (i : Nat) (d : DeviceBehavior)
    (product manufacturer : Option String) : List Event × Except String Unit :=
  if d.openOk then
    ([.libusb_open i true,
      .libusb_get_string_descriptor_ascii i d.desc.iProduct,
      .libusb_get_string_descriptor_ascii i d.desc.iManufacturer] ++
     deviceBody i d product manufacturer ++ [.libusb_close i], .ok ())
  else ([.libusb_open i false], .error openErrMsg)

/-- The scanning loop of reset (lines 114-156): read each descriptor in
order, throw on a failed read, process the first matching device and
return, and print the not-found line when the list is exhausted. -/
def resetScan (p : Nat × Nat) (product manufacturer : Option String) :
    List DeviceBehavior → Nat → List Event × Except String Unit
  | [], _ => ([.out notFoundMsg], .ok ())
  | d :: rest, i =>
    if d.descOk then
      if d.desc.idVendor = p.1 ∧ d.desc.idProduct = p.2 then
        let pr := processDevice i d product manufacturer
        (.libusb_get_device_descriptor i true :: pr.1, pr.2)
      else
        let r := resetScan p product manufacturer rest (i + 1)
        (.libusb_get_device_descriptor i true :: r.1, r.2)
    else ([.libusb_get_device_descriptor i false], .error descErrMsg)

/-- Embedding of the reset function: construct the context and the device
list (each throwing on failure), run the scan, and release the list and
the context in reverse order on every exit path, as the C++ destructors
do during normal return and stack unwinding alike. -/
def reset (env : UsbEnv) (p : Nat × Nat)
    (product manufacturer : Option String) : List Event × Except String Unit :=
  if env.initOk then
    if env.listOk then
      let r := resetScan p product manufacturer env.devices 0
      (.libusb_init true :: .libusb_get_device_list true ::
        (r.1 ++ [.libusb_free_device_list, .libusb_exit]), r.2)
    else ([.libusb_init true, .libusb_get_device_list false, .libusb_exit],
          .error listErrMsg)
  else ([.libusb_init false], .error initErrMsg)

/-- Expected strings passed to reset by main: argv[2] and argv[3] when
four arguments were given, null pointers otherwise. -/
def expectedArgs (argv : List String) : Option String × Option String :=
  if argv.length = 4 then (some (argv.getD 2 ""), some (argv.getD 3 ""))
  else (none, none)

/-- Usage text printed for any other argument count. -/
def usageMsg (prog : String) : String :=
  "This program resets a specified USB device based on provided\n" ++
  "vendor_id:product_id pair. You can obtain this information using " ++
  "\"lsusb\"\ncommand.\nIf you also provide the product name and " ++
  "manufacturer name, the program will do\na comparison first and reset " ++
  "the device only if both of them do NOT match the\nstrings returned " ++
  "by the device. (This is because a malfunctioning USB device\nthat " ++
  "needs to be resetted usually does not return these strings " ++
  "correctly.)\n\nUsage:\n    " ++ prog ++
  " vendor_id:product_id [product_name manufacturer_name]"

/-- Embedding of main: dispatch on the argument count, parse argv[1],
call reset with or without the expected strings, turn any thrown
exception into the two-line diagnostic and exit code 1, and exit 0
otherwise. -/
def main (env : UsbEnv) (argv : List String) : List Event × Nat :=
  if argv.length = 2 ∨ argv.length = 4 then
    match parse_argv1 (argv.getD 1 "") with
    | .error e => ([.out "Error occured.", .out ("Detail: " ++ e.message)], 1)
    | .ok p =>
      let ex := expectedArgs argv
      let r := reset env p ex.1 ex.2
      match r.2 with
      | .ok _ => (r.1, 0)
      | .error msg =>
        (r.1 ++ [.out "Error occured.", .out ("Detail: " ++ msg)], 1)
  else ([.out (usageMsg (argv.getD 0 ""))], 0)

/-- Descriptor-read events for a run of scanned, successfully read,
non-matching devices starting at index i. -/
def descTrace : Nat → Nat → List Event
  | _, 0 => []
  | i, n + 1 => Event.libusb_get_device_descriptor i true :: descTrace (i + 1) n

/-- Sample device used to instantiate theorems at concrete inputs. -/
def sampleDev : DeviceBehavior :=
  { descOk := true
    desc := { idVendor := 0x413c, idProduct := 0x2003,
              iProduct := 1, iManufacturer := 2 }
    openOk := true
    prodStr := "Dell USB Keyboard"
    manuStr := "Dell"
    resetOk := true }

/-- Sample environment with a single matching device. -/
def sampleEnv : UsbEnv := { initOk := true, listOk := true,
                            devices := [sampleDev] }

/-- Sample environment whose libusb_init call fails. -/
def sampleEnvInitFail : UsbEnv := { initOk := false, listOk := true,
                                    devices := [] }

/-- Sample environment with one device that never matches 413c:2003. -/
def sampleEnvNoMatch : UsbEnv :=
  { initOk := true, listOk := true,
    devices := [{ sampleDev with
                  desc := { idVendor := 1, idProduct := 2,
                            iProduct := 0, iManufacturer := 0 } }] }

/-- Sample environment whose matching device fails the reset call. -/
def sampleEnvSoftFail : UsbEnv :=
  { initOk := true, listOk := true,
    devices := [{ sampleDev with resetOk := false }] }

/-! Helper lemmas about the parser embedding. -/

example : parse_argv1 "413c:2003" = .ok (0x413c, 0x2003) := rfl
example : parse_argv1 "0x12:0003" = .ok (18, 3) := rfl
example : parse_argv1 " 123:0003" = .ok (0x123, 3) := rfl
example : parse_argv1 "-000:0003" = .ok (0, 3) := rfl
example : parse_argv1 "-001:0003" = .error .InvalidVendorId := rfl
example : parse_argv1 "413c2003" = .error .FormatError := rfl
example : parse_argv1 "413c:200g" = .error .InvalidProductId := rfl
example : parse_argv1 "ffff:ffff" = .ok (65535, 65535) := rfl


theorem hex_ranges {c : Char} (h : isHexDigitC c = true) :
    (48 ≤ c.toNat ∧ c.toNat ≤ 57) ∨ (97 ≤ c.toNat ∧ c.toNat ≤ 102) ∨
    (65 ≤ c.toNat ∧ c.toNat ≤ 70) := by
  simpa [isHexDigitC, or_assoc] using h

theorem hex_not_space {c : Char} (h : isHexDigitC c = true) :
    isSpaceC c = false := by
  have hr := hex_ranges h
  simp only [isSpaceC, Bool.or_eq_false_iff, decide_eq_false_iff_not]
  omega

theorem hex_beq_false {c t : Char} (h : isHexDigitC c = true)
    (ht : isHexDigitC t = false) : (c == t) = false := by
  cases hq : c == t
  · rfl
  · exfalso
    have hct : c = t := by simpa using hq
    subst hct
    simp [h] at ht

theorem hexVal_lt {c : Char} (h : isHexDigitC c = true) : hexVal c < 16 := by
  have hr := hex_ranges h
  unfold hexVal
  split_ifs <;> omega

theorem strtoul16_hex4 (a b c d : Char) (ha : isHexDigitC a = true)
    (hb : isHexDigitC b = true) (hc : isHexDigitC c = true)
    (hd : isHexDigitC d = true) :
    strtoul16 [a, b, c, d] =
      (((hexVal a * 16 + hexVal b) * 16 + hexVal c) * 16 + hexVal d, 4) := by
  have hsa := hex_not_space ha
  have hap : (a == '+') = false := hex_beq_false ha (by decide)
  have ham : (a == '-') = false := hex_beq_false ha (by decide)
  have hbx : (b == 'x') = false := hex_beq_false hb (by decide)
  have hbX : (b == 'X') = false := hex_beq_false hb (by decide)
  have hlt : ((hexVal a * 16 + hexVal b) * 16 + hexVal c) * 16 + hexVal d
      < 2 ^ 64 := by
    have l1 := hexVal_lt ha
    have l2 := hexVal_lt hb
    have l3 := hexVal_lt hc
    have l4 := hexVal_lt hd
    omega
  unfold strtoul16
  simp [dropSpaces, hsa, signSplit, hap, ham, hexSplit0x, hbx, hbX,
        parseHexRun, ha, hb, hc, hd, Nat.mod_eq_of_lt hlt]
  omega

theorem hexNumber_four (a b c d : Char) :
    hexNumber [a, b, c, d] =
      ((hexVal a * 16 + hexVal b) * 16 + hexVal c) * 16 + hexVal d := by
  simp [hexNumber]

theorem hex4_lt (a b c d : Char) (ha : isHexDigitC a = true)
    (hb : isHexDigitC b = true) (hc : isHexDigitC c = true)
    (hd : isHexDigitC d = true) :
    ((hexVal a * 16 + hexVal b) * 16 + hexVal c) * 16 + hexVal d < 65536 := by
  have l1 := hexVal_lt ha
  have l2 := hexVal_lt hb
  have l3 := hexVal_lt hc
  have l4 := hexVal_lt hd
  omega

/-! Helper lemmas about the pipeline embedding. -/

theorem descTrace_mem {e : Event} :
    ∀ (n i : Nat), e ∈ descTrace i n →
      ∃ j, i ≤ j ∧ j < i + n ∧ e = Event.libusb_get_device_descriptor j true := by
  intro n
  induction n with
  | zero => intro i he; simp [descTrace] at he
  | succ m ih =>
    intro i he
    rw [descTrace] at he
    rcases List.mem_cons.mp he with h | h
    · exact ⟨i, Nat.le_refl i, by omega, h⟩
    · obtain ⟨j, h1, h2, h3⟩ := ih (i + 1) h
      exact ⟨j, by omega, by omega, h3⟩

theorem resetScan_append (p : Nat × Nat) (pro man : Option String) :
    ∀ (pre l : List DeviceBehavior) (i : Nat),
      (∀ x ∈ pre, x.descOk = true ∧
        ¬(x.desc.idVendor = p.1 ∧ x.desc.idProduct = p.2)) →
      resetScan p pro man (pre ++ l) i =
        (descTrace i pre.length ++ (resetScan p pro man l (i + pre.length)).1,
         (resetScan p pro man l (i + pre.length)).2) := by
  intro pre
  induction pre with
  | nil => intro l i _; simp [descTrace]
  | cons x xs ih =>
    intro l i hpre
    have hx := hpre x (List.mem_cons_self x xs)
    have hxs := fun y hy => hpre y (List.mem_cons_of_mem x hy)
    rw [List.cons_append, resetScan, if_pos hx.1, if_neg hx.2,
        ih l (i + 1) hxs]
    have harith : i + 1 + xs.length = i + (x :: xs).length := by
      simp [List.length_cons]; omega
    rw [harith]
    simp only [List.length_cons, descTrace, List.cons_append]

theorem reset_first_match (env : UsbEnv) (p : Nat × Nat)
    (pro man : Option String) (pre : List DeviceBehavior)
    (d : DeviceBehavior) (rest : List DeviceBehavior)
    (hinit : env.initOk = true) (hlist : env.listOk = true)
    (hdev : env.devices = pre ++ d :: rest)
    (hpre : ∀ x ∈ pre, x.descOk = true ∧
      ¬(x.desc.idVendor = p.1 ∧ x.desc.idProduct = p.2))
    (hd : d.descOk = true)
    (hm : d.desc.idVendor = p.1 ∧ d.desc.idProduct = p.2) :
    reset env p pro man =
      (Event.libusb_init true :: Event.libusb_get_device_list true ::
        ((descTrace 0 pre.length ++
          Event.libusb_get_device_descriptor pre.length true ::
            (processDevice pre.length d pro man).1) ++
         [Event.libusb_free_device_list, Event.libusb_exit]),
       (processDevice pre.length d pro man).2) := by
  rw [reset, if_pos hinit, if_pos hlist, hdev,
      resetScan_append p pro man pre (d :: rest) 0 hpre]
  rw [resetScan, if_pos hd, if_pos hm]
  simp

theorem reset_nomatch (env : UsbEnv) (p : Nat × Nat)
    (pro man : Option String)
    (hinit : env.initOk = true) (hlist : env.listOk = true)
    (hnm : ∀ x ∈ env.devices, x.descOk = true ∧
      ¬(x.desc.idVendor = p.1 ∧ x.desc.idProduct = p.2)) :
    reset env p pro man =
      (Event.libusb_init true :: Event.libusb_get_device_list true ::
        ((descTrace 0 env.devices.length ++ [Event.out notFoundMsg]) ++
         [Event.libusb_free_device_list, Event.libusb_exit]),
       .ok ()) := by
  have h := resetScan_append p pro man env.devices [] 0 hnm
  rw [List.append_nil] at h
  rw [reset, if_pos hinit, if_pos hlist, h, resetScan]

theorem proceedDecision_some_some (a b x y : String) :
    proceedDecision (some a) (some b) x y = true ↔ (x ≠ a ∧ y ≠ b) := by
  simp [proceedDecision]

theorem proceedDecision_none_none (x y : String) :
    proceedDecision none none x y = true := rfl

theorem proceedDecision_some_none (a x y : String) :
    proceedDecision (some a) none x y = false := rfl

theorem proceedDecision_none_some (b x y : String) :
    proceedDecision none (some b) x y = false := rfl

theorem processDevice_shape (i : Nat) (d : DeviceBehavior)
    (pro man : Option String) :
    ∀ e ∈ (processDevice i d pro man).1,
      (∃ s, e = Event.out s) ∨ evIndex e = some i := by
  intro e he
  cases hop : d.openOk
  · simp [processDevice, hop] at he
    subst he
    simp [evIndex]
  · cases hdec : proceedDecision pro man d.prodStr d.manuStr
    · simp [processDevice, hop, deviceBody, hdec] at he
      rcases he with rfl | rfl | rfl | rfl <;> simp [evIndex]
    · simp [processDevice, hop, deviceBody, hdec] at he
      rcases he with rfl | rfl | rfl | rfl | rfl | rfl | rfl | ⟨h1, rfl⟩ |
        rfl | rfl <;> simp [evIndex]

theorem reset_device_mem_processDevice (i j : Nat) (ok : Bool)
    (d : DeviceBehavior) (pro man : Option String) (hop : d.openOk = true) :
    Event.libusb_reset_device j ok ∈ (processDevice i d pro man).1 ↔
      (proceedDecision pro man d.prodStr d.manuStr = true ∧ j = i ∧
       ok = d.resetOk) := by
  cases hdec : proceedDecision pro man d.prodStr d.manuStr <;>
    cases hrst : d.resetOk <;>
    simp [processDevice, hop, deviceBody, hdec, hrst]

theorem open_mem_processDevice (i j : Nat) (ok : Bool)
    (d : DeviceBehavior) (pro man : Option String) :
    Event.libusb_open j ok ∈ (processDevice i d pro man).1 ↔
      (j = i ∧ ok = d.openOk) := by
  cases hop : d.openOk <;>
    cases hdec : proceedDecision pro man d.prodStr d.manuStr <;>
    cases hrst : d.resetOk <;>
    simp [processDevice, hop, deviceBody, hdec, hrst]

theorem close_mem_processDevice (i : Nat) (d : DeviceBehavior)
    (pro man : Option String) (hop : d.openOk = true) :
    Event.libusb_close i ∈ (processDevice i d pro man).1 := by
  cases hdec : proceedDecision pro man d.prodStr d.manuStr <;>
    simp [processDevice, hop, deviceBody, hdec]

theorem processDevice_skip_no_reset (i j : Nat) (ok : Bool)
    (d : DeviceBehavior) (pro man : Option String)
    (hdec : proceedDecision pro man d.prodStr d.manuStr = false) :
    Event.libusb_reset_device j ok ∉ (processDevice i d pro man).1 := by
  cases hop : d.openOk <;> simp [processDevice, hop, deviceBody, hdec]

theorem processDevice_skip_no_out (i : Nat) (s : String)
    (d : DeviceBehavior) (pro man : Option String)
    (hdec : proceedDecision pro man d.prodStr d.manuStr = false) :
    Event.out s ∉ (processDevice i d pro man).1 := by
  cases hop : d.openOk <;> simp [processDevice, hop, deviceBody, hdec]

theorem resetScan_cons_descfail (p : Nat × Nat) (pro man : Option String)
    (d : DeviceBehavior) (rest : List DeviceBehavior) (i : Nat)
    (hd : d.descOk = false) :
    resetScan p pro man (d :: rest) i =
      ([Event.libusb_get_device_descriptor i false], .error descErrMsg) := by
  rw [resetScan]
  simp [hd]

theorem resetScan_cons_match (p : Nat × Nat) (pro man : Option String)
    (d : DeviceBehavior) (rest : List DeviceBehavior) (i : Nat)
    (hd : d.descOk = true)
    (hm : d.desc.idVendor = p.1 ∧ d.desc.idProduct = p.2) :
    resetScan p pro man (d :: rest) i =
      (Event.libusb_get_device_descriptor i true ::
        (processDevice i d pro man).1,
       (processDevice i d pro man).2) := by
  rw [resetScan, if_pos hd, if_pos hm]

theorem resetScan_cons_nomatch (p : Nat × Nat) (pro man : Option String)
    (d : DeviceBehavior) (rest : List DeviceBehavior) (i : Nat)
    (hd : d.descOk = true)
    (hm : ¬(d.desc.idVendor = p.1 ∧ d.desc.idProduct = p.2)) :
    resetScan p pro man (d :: rest) i =
      (Event.libusb_get_device_descriptor i true ::
        (resetScan p pro man rest (i + 1)).1,
       (resetScan p pro man rest (i + 1)).2) := by
  rw [resetScan, if_pos hd, if_neg hm]

theorem resetScan_shape (p : Nat × Nat) (pro man : Option String) :
    ∀ (l : List DeviceBehavior) (i : Nat), ∀ e ∈ (resetScan p pro man l i).1,
      (∃ s, e = Event.out s) ∨ ∃ j, evIndex e = some j := by
  intro l
  induction l with
  | nil =>
    intro i e he
    simp [resetScan] at he
    subst he
    exact Or.inl ⟨_, rfl⟩
  | cons d rest ih =>
    intro i e he
    by_cases hd : d.descOk
    · by_cases hm : d.desc.idVendor = p.1 ∧ d.desc.idProduct = p.2
      · rw [resetScan_cons_match p pro man d rest i hd hm] at he
        rcases List.mem_cons.mp he with rfl | h
        · exact Or.inr ⟨i, rfl⟩
        · rcases processDevice_shape i d pro man e h with h1 | h1
          · exact Or.inl h1
          · exact Or.inr ⟨i, h1⟩
      · rw [resetScan_cons_nomatch p pro man d rest i hd hm] at he
        rcases List.mem_cons.mp he with rfl | h
        · exact Or.inr ⟨i, rfl⟩
        · exact ih (i + 1) e h
    · rw [resetScan_cons_descfail p pro man d rest i
        (Bool.not_eq_true _ ▸ hd)] at he
      simp at he
      subst he
      exact Or.inr ⟨i, rfl⟩

theorem resetScan_close (p : Nat × Nat) (pro man : Option String) :
    ∀ (l : List DeviceBehavior) (i j : Nat),
      Event.libusb_open j true ∈ (resetScan p pro man l i).1 →
      Event.libusb_close j ∈ (resetScan p pro man l i).1 := by
  intro l
  induction l with
  | nil => intro i j h; simp [resetScan] at h
  | cons d rest ih =>
    intro i j h
    by_cases hd : d.descOk
    · by_cases hm : d.desc.idVendor = p.1 ∧ d.desc.idProduct = p.2
      · rw [resetScan_cons_match p pro man d rest i hd hm] at h ⊢
        rcases List.mem_cons.mp h with h1 | h1
        · exact absurd h1 (by simp)
        · obtain ⟨rfl, hopen⟩ := (open_mem_processDevice i j true d pro man).mp h1
          exact List.mem_cons_of_mem _
            (close_mem_processDevice j d pro man hopen.symm)
      · rw [resetScan_cons_nomatch p pro man d rest i hd hm] at h ⊢
        rcases List.mem_cons.mp h with h1 | h1
        · exact absurd h1 (by simp)
        · exact List.mem_cons_of_mem _ (ih (i + 1) j h1)
    · rw [resetScan_cons_descfail p pro man d rest i
        (Bool.not_eq_true _ ▸ hd)] at h
      simp at h

theorem resetScan_skip (p : Nat × Nat) (pro man : Option String)
    (hdec : ∀ a b, proceedDecision pro man a b = false) :
    ∀ (l : List DeviceBehavior) (i : Nat),
      (∀ j ok, Event.libusb_reset_device j ok ∉ (resetScan p pro man l i).1) ∧
      (∀ s, Event.out s ∈ (resetScan p pro man l i).1 → s = notFoundMsg) := by
  intro l
  induction l with
  | nil =>
    intro i
    constructor
    · intro j ok h; simp [resetScan] at h
    · intro s h; simp [resetScan] at h; simpa using h
  | cons d rest ih =>
    intro i
    by_cases hd : d.descOk
    · by_cases hm : d.desc.idVendor = p.1 ∧ d.desc.idProduct = p.2
      · rw [resetScan_cons_match p pro man d rest i hd hm]
        constructor
        · intro j ok h
          rcases List.mem_cons.mp h with h1 | h1
          · exact absurd h1 (by simp)
          · exact processDevice_skip_no_reset i j ok d pro man
              (hdec d.prodStr d.manuStr) h1
        · intro s h
          rcases List.mem_cons.mp h with h1 | h1
          · exact absurd h1 (by simp)
          · exact absurd h1 (processDevice_skip_no_out i s d pro man
              (hdec d.prodStr d.manuStr))
      · rw [resetScan_cons_nomatch p pro man d rest i hd hm]
        constructor
        · intro j ok h
          rcases List.mem_cons.mp h with h1 | h1
          · exact absurd h1 (by simp)
          · exact (ih (i + 1)).1 j ok h1
        · intro s h
          rcases List.mem_cons.mp h with h1 | h1
          · exact absurd h1 (by simp)
          · exact (ih (i + 1)).2 s h1
    · rw [resetScan_cons_descfail p pro man d rest i
        (Bool.not_eq_true _ ▸ hd)]
      constructor
      · intro j ok h; simp at h
      · intro s h; simp at h


theorem not_mem_descTrace {e : Event}
    (h : ∀ j, e ≠ Event.libusb_get_device_descriptor j true) (n i : Nat) :
    e ∉ descTrace i n := by
  intro hmem
  obtain ⟨j, _, _, he⟩ := descTrace_mem n i hmem
  exact h j he

theorem reset_device_mem_wrap (j n : Nat) (ok : Bool) (t : List Event) :
    Event.libusb_reset_device j ok ∈
      (Event.libusb_init true :: Event.libusb_get_device_list true ::
        ((descTrace 0 n ++
          Event.libusb_get_device_descriptor n true :: t) ++
         [Event.libusb_free_device_list, Event.libusb_exit])) ↔
    Event.libusb_reset_device j ok ∈ t := by
  have hdt := not_mem_descTrace
    (e := Event.libusb_reset_device j ok) (by intro _ h; cases h) n 0
  simp [List.mem_cons, List.mem_append, hdt]

theorem open_mem_wrap (j n : Nat) (ok : Bool) (t : List Event) :
    Event.libusb_open j ok ∈
      (Event.libusb_init true :: Event.libusb_get_device_list true ::
        ((descTrace 0 n ++
          Event.libusb_get_device_descriptor n true :: t) ++
         [Event.libusb_free_device_list, Event.libusb_exit])) ↔
    Event.libusb_open j ok ∈ t := by
  have hdt := not_mem_descTrace
    (e := Event.libusb_open j ok) (by intro _ h; cases h) n 0
  simp [List.mem_cons, List.mem_append, hdt]

theorem out_mem_wrap (s : String) (n : Nat) (t : List Event) :
    Event.out s ∈
      (Event.libusb_init true :: Event.libusb_get_device_list true ::
        ((descTrace 0 n ++
          Event.libusb_get_device_descriptor n true :: t) ++
         [Event.libusb_free_device_list, Event.libusb_exit])) ↔
    Event.out s ∈ t := by
  have hdt := not_mem_descTrace
    (e := Event.out s) (by intro _ h; cases h) n 0
  simp [List.mem_cons, List.mem_append, hdt]

theorem main_parse_ok (env : UsbEnv) (argv : List String) (p : Nat × Nat)
    (hargc : argv.length = 2 ∨ argv.length = 4)
    (hparse : parse_argv1 (argv.getD 1 "") = .ok p) :
    UsbReset.main env argv =
      (match (reset env p (expectedArgs argv).1 (expectedArgs argv).2).2 with
       | .ok _ =>
         ((reset env p (expectedArgs argv).1 (expectedArgs argv).2).1, 0)
       | .error msg =>
         ((reset env p (expectedArgs argv).1 (expectedArgs argv).2).1 ++
          [Event.out "Error occured.", Event.out ("Detail: " ++ msg)], 1)) := by
  unfold main
  rw [if_pos hargc, hparse]

theorem main_reset_ok (env : UsbEnv) (argv : List String) (p : Nat × Nat)
    (hargc : argv.length = 2 ∨ argv.length = 4)
    (hparse : parse_argv1 (argv.getD 1 "") = .ok p)
    (hok : (reset env p (expectedArgs argv).1 (expectedArgs argv).2).2 =
      .ok ()) :
    UsbReset.main env argv =
      ((reset env p (expectedArgs argv).1 (expectedArgs argv).2).1, 0) := by
  rw [main_parse_ok env argv p hargc hparse, hok]

theorem main_reset_error (env : UsbEnv) (argv : List String) (p : Nat × Nat)
    (msg : String)
    (hargc : argv.length = 2 ∨ argv.length = 4)
    (hparse : parse_argv1 (argv.getD 1 "") = .ok p)
    (herr : (reset env p (expectedArgs argv).1 (expectedArgs argv).2).2 =
      .error msg) :
    UsbReset.main env argv =
      ((reset env p (expectedArgs argv).1 (expectedArgs argv).2).1 ++
       [Event.out "Error occured.", Event.out ("Detail: " ++ msg)], 1) := by
  rw [main_parse_ok env argv p hargc hparse, herr]

/-! Claim theorems. -/

/-- C6: when no device in the snapshot matches the requested pair, the
program prints the not-found line and exits with code 0. -/
theorem no_match_reports_not_found_exit_zero
    (env : UsbEnv) (argv : List String) (p : Nat × Nat)
    (hargc : argv.length = 2 ∨ argv.length = 4)
    (hparse : parse_argv1 (argv.getD 1 "") = .ok p)
    (hinit : env.initOk = true) (hlist : env.listOk = true)
    (hnm : ∀ x ∈ env.devices, x.descOk = true ∧
      ¬(x.desc.idVendor = p.1 ∧ x.desc.idProduct = p.2)) :
    (UsbReset.main env argv).2 = 0 ∧
    Event.out notFoundMsg ∈ (UsbReset.main env argv).1 := by
  have hr := reset_nomatch env p (expectedArgs argv).1 (expectedArgs argv).2
    hinit hlist hnm
  rw [main_parse_ok env argv p hargc hparse, hr]
  constructor
  · rfl
  · simp [List.mem_cons, List.mem_append]

/-- Witness for C6: the sample non-matching environment yields exit code 0
and the not-found line. -/
theorem no_match_reports_not_found_exit_zero_witness :
    (UsbReset.main sampleEnvNoMatch ["usb_reset", "413c:2003"]).2 = 0 ∧
    Event.out notFoundMsg ∈
      (UsbReset.main sampleEnvNoMatch ["usb_reset", "413c:2003"]).1 :=
  no_match_reports_not_found_exit_zero sampleEnvNoMatch
    ["usb_reset", "413c:2003"] (16700, 8195) (Or.inl rfl) rfl rfl rfl
    (by decide)

/-- C7: when the reset call itself fails, the program prints the warning
line and still prints the completion line, and the process exits with
code 0. -/
theorem soft_reset_failure_still_finishes_exit_zero
    (env : UsbEnv) (argv : List String) (p : Nat × Nat)
    (pre : List DeviceBehavior) (d : DeviceBehavior)
    (rest : List DeviceBehavior)
    (hargc : argv.length = 2 ∨ argv.length = 4)
    (hparse : parse_argv1 (argv.getD 1 "") = .ok p)
    (hinit : env.initOk = true) (hlist : env.listOk = true)
    (hdev : env.devices = pre ++ d :: rest)
    (hpre : ∀ x ∈ pre, x.descOk = true ∧
      ¬(x.desc.idVendor = p.1 ∧ x.desc.idProduct = p.2))
    (hd : d.descOk = true)
    (hm : d.desc.idVendor = p.1 ∧ d.desc.idProduct = p.2)
    (hopen : d.openOk = true) (hrst : d.resetOk = false)
    (hdec : proceedDecision (expectedArgs argv).1 (expectedArgs argv).2
      d.prodStr d.manuStr = true) :
    (UsbReset.main env argv).2 = 0 ∧
    Event.out softFailMsg ∈ (UsbReset.main env argv).1 ∧
    Event.out finishedMsg ∈ (UsbReset.main env argv).1 := by
  have hr := reset_first_match env p (expectedArgs argv).1
    (expectedArgs argv).2 pre d rest hinit hlist hdev hpre hd hm
  have hok : (reset env p (expectedArgs argv).1 (expectedArgs argv).2).2 =
      .ok () := by
    rw [hr]
    simp [processDevice, hopen]
  rw [main_reset_ok env argv p hargc hparse hok]
  refine ⟨rfl, ?_, ?_⟩
  · simp [hr, List.mem_cons, List.mem_append, processDevice, hopen,
      deviceBody, hdec, hrst]
  · simp [hr, List.mem_cons, List.mem_append, processDevice, hopen,
      deviceBody, hdec, hrst]

/-- Witness for C7: the sample environment whose device fails the reset
call still exits 0 with the warning and completion lines printed. -/
theorem soft_reset_failure_still_finishes_exit_zero_witness :
    (UsbReset.main sampleEnvSoftFail ["usb_reset", "413c:2003"]).2 = 0 ∧
    Event.out softFailMsg ∈
      (UsbReset.main sampleEnvSoftFail ["usb_reset", "413c:2003"]).1 ∧
    Event.out finishedMsg ∈
      (UsbReset.main sampleEnvSoftFail ["usb_reset", "413c:2003"]).1 :=
  soft_reset_failure_still_finishes_exit_zero sampleEnvSoftFail
    ["usb_reset", "413c:2003"] (16700, 8195) []
    { sampleDev with resetOk := false } [] (Or.inl rfl) rfl rfl rfl rfl
    (by simp) rfl ⟨rfl, rfl⟩ rfl rfl rfl

/-- C8: a parse error yields exactly the two-line diagnostic and exit code
1; an exception thrown inside reset yields the reset trace followed by
the two-line diagnostic and exit code 1; a normal reset completion and
the usage path exit with code 0; and each fatal condition of the USB
layer (library init refusal, enumeration failure, a failed descriptor
read while scanning, a failed handle open on the matched device) makes
reset throw with the corresponding message. -/
theorem fatal_errors_diagnostic_exit_codes :
    (∀ (env : UsbEnv) (argv : List String) (e : ParseError),
      (argv.length = 2 ∨ argv.length = 4) →
      parse_argv1 (argv.getD 1 "") = .error e →
      UsbReset.main env argv =
        ([Event.out "Error occured.",
          Event.out ("Detail: " ++ e.message)], 1)) ∧
    (∀ (env : UsbEnv) (argv : List String) (p : Nat × Nat) (msg : String),
      (argv.length = 2 ∨ argv.length = 4) →
      parse_argv1 (argv.getD 1 "") = .ok p →
      (reset env p (expectedArgs argv).1 (expectedArgs argv).2).2 =
        .error msg →
      UsbReset.main env argv =
        ((reset env p (expectedArgs argv).1 (expectedArgs argv).2).1 ++
         [Event.out "Error occured.", Event.out ("Detail: " ++ msg)], 1)) ∧
    (∀ (env : UsbEnv) (argv : List String) (p : Nat × Nat),
      (argv.length = 2 ∨ argv.length = 4) →
      parse_argv1 (argv.getD 1 "") = .ok p →
      (reset env p (expectedArgs argv).1 (expectedArgs argv).2).2 =
        .ok () →
      (UsbReset.main env argv).2 = 0) ∧
    (∀ (env : UsbEnv) (argv : List String),
      ¬(argv.length = 2 ∨ argv.length = 4) →
      (UsbReset.main env argv).2 = 0) ∧
    (∀ (env : UsbEnv) (p : Nat × Nat) (pro man : Option String),
      env.initOk = false → (reset env p pro man).2 = .error initErrMsg) ∧
    (∀ (env : UsbEnv) (p : Nat × Nat) (pro man : Option String),
      env.initOk = true → env.listOk = false →
      (reset env p pro man).2 = .error listErrMsg) ∧
    (∀ (env : UsbEnv) (p : Nat × Nat) (pro man : Option String)
      (pre : List DeviceBehavior) (d : DeviceBehavior)
      (rest : List DeviceBehavior),
      env.initOk = true → env.listOk = true →
      env.devices = pre ++ d :: rest →
      (∀ x ∈ pre, x.descOk = true ∧
        ¬(x.desc.idVendor = p.1 ∧ x.desc.idProduct = p.2)) →
      d.descOk = false → (reset env p pro man).2 = .error descErrMsg) ∧
    (∀ (env : UsbEnv) (p : Nat × Nat) (pro man : Option String)
      (pre : List DeviceBehavior) (d : DeviceBehavior)
      (rest : List DeviceBehavior),
      env.initOk = true → env.listOk = true →
      env.devices = pre ++ d :: rest →
      (∀ x ∈ pre, x.descOk = true ∧
        ¬(x.desc.idVendor = p.1 ∧ x.desc.idProduct = p.2)) →
      d.descOk = true →
      (d.desc.idVendor = p.1 ∧ d.desc.idProduct = p.2) →
      d.openOk = false → (reset env p pro man).2 = .error openErrMsg) := by
  refine ⟨?_, ?_, ?_, ?_, ?_, ?_, ?_, ?_⟩
  · intro env argv e hargc hparse
    unfold main
    rw [if_pos hargc, hparse]
  · intro env argv p msg hargc hparse herr
    exact main_reset_error env argv p msg hargc hparse herr
  · intro env argv p hargc hparse hok
    rw [main_reset_ok env argv p hargc hparse hok]
  · intro env argv h
    unfold main
    rw [if_neg h]
  · intro env p pro man h
    unfold reset
    rw [if_neg (by simp [h])]
  · intro env p pro man h1 h2
    unfold reset
    rw [if_pos h1, if_neg (by simp [h2])]
  · intro env p pro man pre d rest h1 h2 hdev hpre hd
    have hsc : (resetScan p pro man env.devices 0).2 = .error descErrMsg := by
      rw [hdev, resetScan_append p pro man pre (d :: rest) 0 hpre,
          resetScan_cons_descfail p pro man d rest (0 + pre.length) hd]
    unfold reset
    rw [if_pos h1, if_pos h2]
    exact hsc
  · intro env p pro man pre d rest h1 h2 hdev hpre hd hm hopen
    have hsc : (resetScan p pro man env.devices 0).2 = .error openErrMsg := by
      rw [hdev, resetScan_append p pro man pre (d :: rest) 0 hpre,
          resetScan_cons_match p pro man d rest (0 + pre.length) hd hm]
      simp [processDevice, hopen]
    unfold reset
    rw [if_pos h1, if_pos h2]
    exact hsc

/-- Witness for C8: a failed library init makes reset throw its message,
and a parse failure produces exactly the two diagnostic lines with
exit code 1. -/
theorem fatal_errors_diagnostic_exit_codes_witness :
    (reset sampleEnvInitFail (16700, 8195) none none).2 =
      .error initErrMsg ∧
    UsbReset.main sampleEnvInitFail ["usb_reset", "zzzz:0000"] =
      ([Event.out "Error occured.",
        Event.out ("Detail: " ++ ParseError.InvalidVendorId.message)], 1) :=
  ⟨fatal_errors_diagnostic_exit_codes.2.2.2.2.1 sampleEnvInitFail
    (16700, 8195) none none rfl,
   fatal_errors_diagnostic_exit_codes.1 sampleEnvInitFail
    ["usb_reset", "zzzz:0000"] .InvalidVendorId (Or.inl rfl) rfl⟩

/-- C9: on every execution path, resources are released in strict
reverse-acquisition order and none is leaked: a failed init acquires
nothing; a failed enumeration still releases the session; and whenever
the device list was obtained, the trace ends with the list release
followed by the session release, with only per-device calls and output
lines in between, and every successfully opened handle is closed before
the list release. -/
theorem resource_release_order_invariant (env : UsbEnv) (p : Nat × Nat)
    (pro man : Option String) :
    (env.initOk = false →
      (reset env p pro man).1 = [Event.libusb_init false]) ∧
    (env.initOk = true → env.listOk = false →
      (reset env p pro man).1 =
        [Event.libusb_init true, Event.libusb_get_device_list false,
         Event.libusb_exit]) ∧
    (env.initOk = true → env.listOk = true →
      ∃ t, (reset env p pro man).1 =
          Event.libusb_init true :: Event.libusb_get_device_list true ::
            (t ++ [Event.libusb_free_device_list, Event.libusb_exit]) ∧
        (∀ e ∈ t, (∃ s, e = Event.out s) ∨ ∃ j, evIndex e = some j) ∧
        (∀ j, Event.libusb_open j true ∈ t →
          Event.libusb_close j ∈ t)) := by
  refine ⟨fun h => ?_, fun h1 h2 => ?_, fun h1 h2 => ?_⟩
  · unfold reset
    rw [if_neg (by simp [h])]
  · unfold reset
    rw [if_pos h1, if_neg (by simp [h2])]
  · refine ⟨(resetScan p pro man env.devices 0).1, ?_,
      resetScan_shape p pro man env.devices 0,
      fun j => resetScan_close p pro man env.devices 0 j⟩
    unfold reset
    rw [if_pos h1, if_pos h2]

/-- Witness for C9: with a failed init the trace is exactly the failed
init call. -/
theorem resource_release_order_invariant_witness :
    (reset sampleEnvInitFail (16700, 8195) none none).1 =
      [Event.libusb_init false] :=
  (resource_release_order_invariant sampleEnvInitFail (16700, 8195)
    none none).1 rfl

/-- C10: if reset is invoked with exactly one of the two expected strings
supplied, the decision engine never proceeds: no reset call appears in
the trace and the only line reset can print is the not-found line. -/
theorem one_sided_expected_strings_never_reset
    (env : UsbEnv) (p : Nat × Nat) (pro man : Option String)
    (h : (∃ s, pro = some s ∧ man = none) ∨
         (∃ s, pro = none ∧ man = some s)) :
    (∀ j ok, Event.libusb_reset_device j ok ∉ (reset env p pro man).1) ∧
    (∀ s, Event.out s ∈ (reset env p pro man).1 → s = notFoundMsg) := by
  have hdec : ∀ a b, proceedDecision pro man a b = false := by
    rcases h with ⟨s, rfl, rfl⟩ | ⟨s, rfl, rfl⟩
    · exact proceedDecision_some_none s
    · exact proceedDecision_none_some s
  by_cases hinit : env.initOk
  · by_cases hlist : env.listOk
    · have hs := resetScan_skip p pro man hdec env.devices 0
      have htr : (reset env p pro man).1 =
          Event.libusb_init true :: Event.libusb_get_device_list true ::
            ((resetScan p pro man env.devices 0).1 ++
             [Event.libusb_free_device_list, Event.libusb_exit]) := by
        unfold reset
        rw [if_pos hinit, if_pos hlist]
      rw [htr]
      constructor
      · intro j ok hmem
        simp only [List.mem_cons, List.mem_append] at hmem
        rcases hmem with h1 | h1 | h1 | h1 | h1 | h1
        · exact Event.noConfusion h1
        · exact Event.noConfusion h1
        · exact hs.1 j ok h1
        · exact Event.noConfusion h1
        · exact Event.noConfusion h1
        · simp at h1
      · intro s hmem
        simp only [List.mem_cons, List.mem_append] at hmem
        rcases hmem with h1 | h1 | h1 | h1 | h1 | h1
        · exact Event.noConfusion h1
        · exact Event.noConfusion h1
        · exact hs.2 s h1
        · exact Event.noConfusion h1
        · exact Event.noConfusion h1
        · simp at h1
    · have htr : (reset env p pro man).1 =
          [Event.libusb_init true, Event.libusb_get_device_list false,
           Event.libusb_exit] := by
        unfold reset
        rw [if_pos hinit, if_neg hlist]
      rw [htr]
      constructor
      · intro j ok hmem
        simp at hmem
      · intro s hmem
        simp at hmem
  · have htr : (reset env p pro man).1 = [Event.libusb_init false] := by
      unfold reset
      rw [if_neg hinit]
    rw [htr]
    constructor
    · intro j ok hmem
      simp at hmem
    · intro s hmem
      simp at hmem

/-- Witness for C10: with only a product string supplied, the sample
matching environment performs no reset call. -/
theorem one_sided_expected_strings_never_reset_witness :
    Event.libusb_reset_device 0 true ∉
      (reset sampleEnv (16700, 8195) (some "Dell USB Keyboard") none).1 :=
  (one_sided_expected_strings_never_reset sampleEnv (16700, 8195)
    (some "Dell USB Keyboard") none
    (Or.inl ⟨"Dell USB Keyboard", rfl, rfl⟩)).1 0 true

/-- C1: in conditional mode (both expected strings supplied), the first
matched device is reset if and only if its actual product string differs
from the expected product string and its actual manufacturer string
differs from the expected manufacturer string; if either string equals
its expected value the device is skipped and no reset call is attempted
at all. -/
theorem conditional_mode_resets_iff_both_differ
    (env : UsbEnv) (p : Nat × Nat) (ep em : String)
    (pre : List DeviceBehavior) (d : DeviceBehavior)
    (rest : List DeviceBehavior)
    (hinit : env.initOk = true) (hlist : env.listOk = true)
    (hdev : env.devices = pre ++ d :: rest)
    (hpre : ∀ x ∈ pre, x.descOk = true ∧
      ¬(x.desc.idVendor = p.1 ∧ x.desc.idProduct = p.2))
    (hd : d.descOk = true)
    (hm : d.desc.idVendor = p.1 ∧ d.desc.idProduct = p.2)
    (hopen : d.openOk = true) :
    (Event.libusb_reset_device pre.length d.resetOk
        ∈ (reset env p (some ep) (some em)).1 ↔
      (d.prodStr ≠ ep ∧ d.manuStr ≠ em)) ∧
    ((d.prodStr = ep ∨ d.manuStr = em) → ∀ j ok,
      Event.libusb_reset_device j ok ∉ (reset env p (some ep) (some em)).1) := by
  rw [reset_first_match env p (some ep) (some em) pre d rest hinit hlist hdev
      hpre hd hm]
  constructor
  · rw [reset_device_mem_wrap pre.length pre.length d.resetOk _]
    rw [reset_device_mem_processDevice pre.length pre.length d.resetOk d
        (some ep) (some em) hopen]
    constructor
    · rintro ⟨hdec, -, -⟩
      exact (proceedDecision_some_some ep em d.prodStr d.manuStr).mp hdec
    · intro hdiff
      exact ⟨(proceedDecision_some_some ep em d.prodStr d.manuStr).mpr hdiff,
        rfl, rfl⟩
  · intro heq j ok
    rw [reset_device_mem_wrap j pre.length ok _]
    rw [reset_device_mem_processDevice pre.length j ok d
        (some ep) (some em) hopen]
    rintro ⟨hdec, -, -⟩
    have hboth := (proceedDecision_some_some ep em d.prodStr d.manuStr).mp hdec
    rcases heq with h | h
    · exact hboth.1 h
    · exact hboth.2 h

/-- Witness for C1: with expected strings that differ from the sample
device's actual strings, the reset call appears in the trace. -/
theorem conditional_mode_resets_iff_both_differ_witness :
    Event.libusb_reset_device 0 true
      ∈ (reset sampleEnv (16700, 8195) (some "x") (some "y")).1 :=
  (conditional_mode_resets_iff_both_differ sampleEnv (16700, 8195) "x" "y"
    [] sampleDev [] rfl rfl rfl (by simp) rfl ⟨rfl, rfl⟩ rfl).1.mpr
    ⟨by decide, by decide⟩

/-- C5: the scan examines devices in snapshot order and processes exactly
the first device whose vendor and product ids equal the target: every
per-device libusb call in the trace concerns an index at or before the
first match, every handle open concerns exactly the first match, and
that open is performed. -/
theorem first_match_selected_only
    (env : UsbEnv) (p : Nat × Nat) (pro man : Option String)
    (pre : List DeviceBehavior) (d : DeviceBehavior)
    (rest : List DeviceBehavior)
    (hinit : env.initOk = true) (hlist : env.listOk = true)
    (hdev : env.devices = pre ++ d :: rest)
    (hpre : ∀ x ∈ pre, x.descOk = true ∧
      ¬(x.desc.idVendor = p.1 ∧ x.desc.idProduct = p.2))
    (hd : d.descOk = true)
    (hm : d.desc.idVendor = p.1 ∧ d.desc.idProduct = p.2) :
    (∀ e ∈ (reset env p pro man).1, ∀ j, evIndex e = some j →
      j ≤ pre.length) ∧
    (∀ j ok, Event.libusb_open j ok ∈ (reset env p pro man).1 →
      j = pre.length ∧ ok = d.openOk) ∧
    Event.libusb_open pre.length d.openOk ∈ (reset env p pro man).1 := by
  rw [reset_first_match env p pro man pre d rest hinit hlist hdev hpre hd hm]
  refine ⟨?_, ?_, ?_⟩
  · intro e he j hj
    simp only [List.mem_cons, List.mem_append] at he
    rcases he with rfl | rfl | (h | rfl | h) | rfl | rfl | h
    · simp [evIndex] at hj
    · simp [evIndex] at hj
    · obtain ⟨k, hk1, hk2, rfl⟩ := descTrace_mem _ _ h
      simp [evIndex] at hj
      omega
    · simp [evIndex] at hj
      omega
    · rcases processDevice_shape _ _ _ _ e h with ⟨s, rfl⟩ | hidx
      · simp [evIndex] at hj
      · rw [hidx] at hj
        injection hj with hj
        omega
    · simp [evIndex] at hj
    · simp [evIndex] at hj
    · simp at h
  · intro j ok h
    rw [open_mem_wrap j pre.length ok _] at h
    exact (open_mem_processDevice pre.length j ok d pro man).mp h
  · rw [open_mem_wrap pre.length pre.length d.openOk _]
    exact (open_mem_processDevice pre.length pre.length d.openOk d
      pro man).mpr ⟨rfl, rfl⟩

/-- Witness for C5: in the sample environment the single matched device at
index 0 is the one opened. -/
theorem first_match_selected_only_witness :
    Event.libusb_open 0 true ∈ (reset sampleEnv (16700, 8195) none none).1 :=
  (first_match_selected_only sampleEnv (16700, 8195) none none
    [] sampleDev [] rfl rfl rfl (by simp) rfl ⟨rfl, rfl⟩).2.2

/-- C2: in unconditional mode (no expected strings supplied), the first
matched device is always reset, regardless of the content of its product
and manufacturer strings. -/
theorem unconditional_mode_always_proceeds
    (env : UsbEnv) (p : Nat × Nat)
    (pre : List DeviceBehavior) (d : DeviceBehavior)
    (rest : List DeviceBehavior)
    (hinit : env.initOk = true) (hlist : env.listOk = true)
    (hdev : env.devices = pre ++ d :: rest)
    (hpre : ∀ x ∈ pre, x.descOk = true ∧
      ¬(x.desc.idVendor = p.1 ∧ x.desc.idProduct = p.2))
    (hd : d.descOk = true)
    (hm : d.desc.idVendor = p.1 ∧ d.desc.idProduct = p.2)
    (hopen : d.openOk = true) :
    Event.libusb_reset_device pre.length d.resetOk
        ∈ (reset env p none none).1 ∧
    Event.out "Resetting this device ..." ∈ (reset env p none none).1 := by
  rw [reset_first_match env p none none pre d rest hinit hlist hdev
      hpre hd hm]
  constructor
  · rw [reset_device_mem_wrap pre.length pre.length d.resetOk _]
    exact (reset_device_mem_processDevice pre.length pre.length d.resetOk d
      none none hopen).mpr ⟨proceedDecision_none_none _ _, rfl, rfl⟩
  · rw [out_mem_wrap "Resetting this device ..." pre.length _]
    simp [processDevice, hopen, deviceBody, proceedDecision_none_none]

/-- Witness for C2: the sample matching device is reset in unconditional
mode. -/
theorem unconditional_mode_always_proceeds_witness :
    Event.libusb_reset_device 0 true
      ∈ (reset sampleEnv (16700, 8195) none none).1 :=
  (unconditional_mode_always_proceeds sampleEnv (16700, 8195)
    [] sampleDev [] rfl rfl rfl (by simp) rfl ⟨rfl, rfl⟩ rfl).1

/-- C3: for every well-formed 9-character input string consisting of 4
hexadecimal digits, a colon at offset 4, and 4 hexadecimal digits,
parse_argv1 succeeds and returns the pair of values numerically denoted
by the two hex halves. -/
theorem wellformed_pair_parses_correctly (a b c d e f g h : Char)
    (ha : isHexDigitC a = true) (hb : isHexDigitC b = true)
    (hc : isHexDigitC c = true) (hd : isHexDigitC d = true)
    (he : isHexDigitC e = true) (hf : isHexDigitC f = true)
    (hg : isHexDigitC g = true) (hh : isHexDigitC h = true) :
    parse_argv1 (String.mk [a, b, c, d, ':', e, f, g, h]) =
      .ok (hexNumber [a, b, c, d], hexNumber [e, f, g, h]) := by
  have h1 := strtoul16_hex4 a b c d ha hb hc hd
  have h2 := strtoul16_hex4 e f g h he hf hg hh
  have l1 := hex4_lt a b c d ha hb hc hd
  have l2 := hex4_lt e f g h he hf hg hh
  simp [parse_argv1, h1, h2, hexNumber_four, Nat.not_le.mpr l1,
        Nat.not_le.mpr l2]

/-- Witness for C3: the documented example 413c:2003 parses to the pair
(0x413c, 0x2003). -/
theorem wellformed_pair_parses_correctly_witness :
    parse_argv1 (String.mk ['4', '1', '3', 'c', ':', '2', '0', '0', '3']) =
      .ok (hexNumber ['4', '1', '3', 'c'], hexNumber ['2', '0', '0', '3']) :=
  wellformed_pair_parses_correctly '4' '1' '3' 'c' '2' '0' '0' '3'
    (by decide) (by decide) (by decide) (by decide)
    (by decide) (by decide) (by decide) (by decide)

/-- Counterexample for C4: the input 0x12:0003 contains the
non-hexadecimal character x in its first half, yet the parser does not
fail: strtoul consumes the 0x prefix and the parse succeeds with the
pair (0x12, 3). -/
theorem lenient_half_parse_counterexample :
    isHexDigitC 'x' = false ∧ parse_argv1 "0x12:0003" = .ok (18, 3) :=
  ⟨by decide, rfl⟩

/-- C4 (amended): length or colon violations fail with FormatError; for a
well-formed frame the parser fails with InvalidVendorId exactly when
the base-16 strtoul parse of the first half (which also accepts leading
whitespace, a sign, and a 0x/0X prefix) does not consume exactly its 4
characters or yields a value of at least 0x10000, and with
InvalidProductId exactly when the first half is accepted and the second
half fails that same test. -/
theorem parse_failure_characterization (s : String) :
    (parse_argv1 s = .error .FormatError ↔
      ¬(s.data.length = 9 ∧ s.data.getD 4 ' ' = ':')) ∧
    (parse_argv1 s = .error .InvalidVendorId ↔
      (s.data.length = 9 ∧ s.data.getD 4 ' ' = ':' ∧
       ((strtoul16 (s.data.take 4)).2 ≠ 4 ∨
        65536 ≤ (strtoul16 (s.data.take 4)).1))) ∧
    (parse_argv1 s = .error .InvalidProductId ↔
      (s.data.length = 9 ∧ s.data.getD 4 ' ' = ':' ∧
       (strtoul16 (s.data.take 4)).2 = 4 ∧
       (strtoul16 (s.data.take 4)).1 < 65536 ∧
       ((strtoul16 ((s.data.drop 5).take 4)).2 ≠ 4 ∨
        65536 ≤ (strtoul16 ((s.data.drop 5).take 4)).1))) := by
  unfold parse_argv1
  by_cases hA : s.data.length ≠ 9 ∨ s.data.getD 4 ' ' ≠ ':'
  · rw [if_pos hA]
    refine ⟨⟨fun _ hcon => ?_, fun _ => rfl⟩,
      ⟨fun hw => ParseError.noConfusion (Except.error.inj hw),
       fun hr => ?_⟩,
      ⟨fun hw => ParseError.noConfusion (Except.error.inj hw),
       fun hr => ?_⟩⟩
    · rcases hA with hx | hx
      · exact hx hcon.1
      · exact hx hcon.2
    · rcases hA with hx | hx
      · exact absurd hr.1 hx
      · exact absurd hr.2.1 hx
    · rcases hA with hx | hx
      · exact absurd hr.1 hx
      · exact absurd hr.2.1 hx
  · push_neg at hA
    have hA2 : ¬(s.data.length ≠ 9 ∨ s.data.getD 4 ' ' ≠ ':') := by
      intro hcon
      rcases hcon with hx | hx
      · exact hx hA.1
      · exact hx hA.2
    rw [if_neg hA2]
    by_cases hB : (strtoul16 (s.data.take 4)).2 ≠ 4 ∨
        65536 ≤ (strtoul16 (s.data.take 4)).1
    · rw [if_pos hB]
      exact ⟨⟨fun hw => ParseError.noConfusion (Except.error.inj hw),
          fun hr => absurd ⟨hA.1, hA.2⟩ hr⟩,
        ⟨fun _ => ⟨hA.1, hA.2, hB⟩, fun _ => rfl⟩,
        ⟨fun hw => ParseError.noConfusion (Except.error.inj hw),
         fun hr => by
           rcases hB with hx | hx
           · exact absurd hr.2.2.1 hx
           · exact absurd hr.2.2.2.1 (Nat.not_lt.mpr hx)⟩⟩
    · push_neg at hB
      have hB2 : ¬((strtoul16 (s.data.take 4)).2 ≠ 4 ∨
          65536 ≤ (strtoul16 (s.data.take 4)).1) := by
        intro hcon
        rcases hcon with hx | hx
        · exact hx hB.1
        · exact absurd hB.2 (Nat.not_lt.mpr hx)
      rw [if_neg hB2]
      by_cases hC : (strtoul16 ((s.data.drop 5).take 4)).2 ≠ 4 ∨
          65536 ≤ (strtoul16 ((s.data.drop 5).take 4)).1
      · rw [if_pos hC]
        exact ⟨⟨fun hw => ParseError.noConfusion (Except.error.inj hw),
            fun hr => absurd ⟨hA.1, hA.2⟩ hr⟩,
          ⟨fun hw => ParseError.noConfusion (Except.error.inj hw),
           fun hr => by
             rcases hr.2.2 with hx | hx
             · exact absurd hB.1 hx
             · exact absurd hB.2 (Nat.not_lt.mpr hx)⟩,
          ⟨fun _ => ⟨hA.1, hA.2, hB.1, hB.2, hC⟩, fun _ => rfl⟩⟩
      · rw [if_neg hC]
        exact ⟨⟨fun hw => Except.noConfusion hw,
            fun hr => absurd ⟨hA.1, hA.2⟩ hr⟩,
          ⟨fun hw => Except.noConfusion hw,
           fun hr => by
             rcases hr.2.2 with hx | hx
             · exact absurd hB.1 hx
             · exact absurd hB.2 (Nat.not_lt.mpr hx)⟩,
          ⟨fun hw => Except.noConfusion hw,
           fun hr => absurd hr.2.2.2.2 hC⟩⟩


/-- Witness for C4 (amended): one concrete input per error kind. -/
theorem parse_failure_characterization_witness :
    parse_argv1 "413c" = .error .FormatError ∧
    parse_argv1 "zzzz:0000" = .error .InvalidVendorId ∧
    parse_argv1 "0000:zzzz" = .error .InvalidProductId :=
  ⟨(parse_failure_characterization "413c").1.mpr (by decide),
   (parse_failure_characterization "zzzz:0000").2.1.mpr (by decide),
   (parse_failure_characterization "0000:zzzz").2.2.mpr (by decide)⟩

end UsbReset
